import Mathlib

/-!
Verification of the sales record-keeping and reporting tool
(`sales_data/database.py`, `sales_data/analytics.py`, `sales_data/data_entry.py`).

Monetary amounts (`sales`, `profit`) are embedded as exact rationals (`Rat`);
pandas performs float arithmetic, but every claim under study concerns exact
comparisons, sums and zero-denominator behaviour, for which rational
arithmetic is the intended semantics.  The one place where IEEE-754 behaviour
is essential — division by zero yielding NaN or ±infinity instead of raising —
is modelled explicitly by the `PFloat` type below.
-/

namespace SalesData

/-- A calendar date (year, month, day), as carried by `order_date`
(`DATE` column in `database.py`, `datetime.date` in the pages). -/
structure Date where
  year : Nat
  month : Nat
  day : Nat
  deriving DecidableEq, Repr

/-- Calendar order on dates: lexicographic on (year, month, day).
This is exactly how Python `datetime.date` objects compare in
`analytics.py` line 163 (`df['order_date'].dt.date >= start_date`, etc.). -/
def Date.le (a b : Date) : Bool :=
  a.year < b.year ||
    (a.year == b.year &&
      (a.month < b.month || (a.month == b.month && a.day ≤ b.day)))

/-- One row of the `sales` table (`database.py` lines 28-40):
`id INTEGER PRIMARY KEY AUTOINCREMENT`, `order_date DATE`, `product`,
`customer`, `sales DECIMAL`, `profit DECIMAL`, `quantity INTEGER`,
`created_at TIMESTAMP` (modelled as a Nat tick). -/
structure SaleRecord where
  id : Nat
  order_date : Date
  product : String
  customer : String
  sales : Rat
  profit : Rat
  quantity : Int
  created_at : Nat
  deriving DecidableEq, Repr

/-! ## Filter Engine (`analytics.py` lines 157-171)

The dashboard copies the full record set and applies four masks in sequence:
the inclusive date range (only when a two-element range was supplied), the
product selector (skipped when it is `"All"`), then `sales >= min_sales`
and `profit >= min_profit`. -/

/-- The filter pipeline of `analytics.py` lines 157-171, with the session
state passed explicitly: `dateRange = none` models the case where
`len(st.session_state.date_range) != 2` (no date filtering). -/
def applyFilters (dateRange : Option (Date × Date)) (selectedProduct : String)
    (minSales minProfit : Rat) (dfAll : List SaleRecord) : List SaleRecord :=
  let df := match dateRange with
    | some se => dfAll.filter fun r : SaleRecord =>
        Date.le se.1 r.order_date && Date.le r.order_date se.2
    | none => dfAll
  let df := if selectedProduct ≠ "All"
    then df.filter fun r : SaleRecord => r.product = selectedProduct
    else df
  let df := df.filter fun r : SaleRecord => minSales ≤ r.sales
  df.filter fun r : SaleRecord => minProfit ≤ r.profit

/-! ## KPI summary metrics (`analytics.py` lines 183-188) -/

/-- `total_sales = df['sales'].sum()` (`analytics.py` line 183). -/
def total_sales (df : List SaleRecord) : Rat := (df.map SaleRecord.sales).sum

/-- `total_profit = df['profit'].sum()` (`analytics.py` line 184). -/
def total_profit (df : List SaleRecord) : Rat := (df.map SaleRecord.profit).sum

/-- `total_orders = len(df)` (`analytics.py` line 185). -/
def total_orders (df : List SaleRecord) : Nat := df.length

/-- `avg_order_value = total_sales / total_orders if total_orders > 0 else 0`
(`analytics.py` line 186). -/
def avg_order_value (df : List SaleRecord) : Rat :=
  if 0 < total_orders df then total_sales df / (total_orders df : Rat) else 0

/-- `profit_margin = (total_profit / total_sales * 100) if total_sales > 0 else 0`
(`analytics.py` line 187). -/
def profit_margin_kpi (df : List SaleRecord) : Rat :=
  if 0 < total_sales df then total_profit df / total_sales df * 100 else 0

/-- `avg_profit_per_order = total_profit / total_orders if total_orders > 0 else 0`
(`analytics.py` line 188). -/
def avg_profit_per_order (df : List SaleRecord) : Rat :=
  if 0 < total_orders df then total_profit df / (total_orders df : Rat) else 0

/-! ## Pandas float division

The row-level ratio columns (`analytics.py` lines 298, 331, 390-392) divide
two pandas series with no zero guard.  On finite float operands pandas
follows IEEE 754: `x / 0` is `+inf` for `x > 0`, `-inf` for `x < 0`, and
`NaN` for `x == 0`; no exception is raised.  `PFloat` captures exactly this:
an exact rational when the denominator is nonzero, a non-finite value
otherwise. -/

/-- Result of a pandas elementwise float division on finite operands. -/
inductive PFloat where
  | finite (q : Rat)
  | posInf
  | negInf
  | nan
  deriving DecidableEq, Repr

/-- `a / b` as pandas computes it on finite float operands. -/
def pandasDiv (a b : Rat) : PFloat :=
  if b ≠ 0 then .finite (a / b)
  else if 0 < a then .posInf
  else if a < 0 then .negInf
  else .nan

/-- Multiplication of a division result by the positive literal `100`
(the `* 100` in the profit-margin columns): `NaN` and the signed infinities
are absorbing. -/
def pandasMul100 (x : PFloat) : PFloat :=
  match x with
  | .finite q => .finite (q * 100)
  | .posInf => .posInf
  | .negInf => .negInf
  | .nan => .nan

/-- Whether a pandas value is an ordinary finite number. -/
def PFloat.isFinite : PFloat → Bool
  | .finite _ => true
  | _ => false

/-! ## Aggregator (`analytics.py` lines 263-269, 325-329, 354-359, 384-388)

All four `df.groupby(col).agg({...})` calls in `analytics.py` reduce the
filtered record set to one row per distinct key with summed `sales`,
`profit`, `quantity` and a record count (the `'id': 'count'` entry, or the
group size).  `groupAgg` embeds that reduction; pandas additionally sorts the
output rows by key, an ordering that none of the properties under study
depend on (here rows appear in first-occurrence order of their key). -/

/-- One output row of a `groupby(...).agg(...)` reduction. -/
structure AggRow (κ : Type) where
  key : κ
  sales : Rat
  profit : Rat
  quantity : Int
  count : Nat
  deriving DecidableEq, Repr

/-- `df.groupby(key).agg({'sales': 'sum', 'profit': 'sum', 'quantity': 'sum',
'id': 'count'})`: one row per distinct key value present in `df`. -/
def groupAgg {κ : Type} [DecidableEq κ] (key : SaleRecord → κ)
    (df : List SaleRecord) : List (AggRow κ) :=
  ((df.map key).dedup).map fun k =>
    let g := df.filter fun r => key r = k
    { key := k
      sales := total_sales g
      profit := total_profit g
      quantity := (g.map SaleRecord.quantity).sum
      count := g.length }

/-- The `profit_margin` column added to `trend_data` (`analytics.py`
line 298): `trend_data['profit'] / trend_data['sales'] * 100`, with no zero
guard. -/
def trendProfitMargin {κ : Type} (rows : List (AggRow κ)) : List PFloat :=
  rows.map fun g => pandasMul100 (pandasDiv g.profit g.sales)

/-- One row of `profit_analysis` (`analytics.py` lines 384-392): the
per-product sums together with the derived ratio columns
`profit_margin = profit / sales * 100`, `avg_price = sales / quantity` and
`profit_per_unit = profit / quantity` — none of them zero-guarded. -/
structure ProfitRow where
  product : String
  sales : Rat
  profit : Rat
  quantity : Int
  profit_margin : PFloat
  avg_price : PFloat
  profit_per_unit : PFloat
  deriving DecidableEq, Repr

/-- `profit_analysis = df.groupby('product').agg({...})` followed by the
three derived ratio columns (`analytics.py` lines 384-392). -/
def profit_analysis (df : List SaleRecord) : List ProfitRow :=
  (groupAgg SaleRecord.product df).map fun g =>
    { product := g.key
      sales := g.sales
      profit := g.profit
      quantity := g.quantity
      profit_margin := pandasMul100 (pandasDiv g.profit g.sales)
      avg_price := pandasDiv g.sales (g.quantity : Rat)
      profit_per_unit := pandasDiv g.profit (g.quantity : Rat) }

/-! ## Period Bucketer (`analytics.py` lines 237-261)

The trend section derives one bucket-key column per granularity:
`year_month = dt.strftime('%Y-%m')`, `year = dt.year`, `week =
dt.isocalendar().week`, `quarter = dt.quarter`, and for Daily the date is
re-rendered as `dt.strftime('%Y-%m-%d')`.  `dt.isocalendar().week` is the
ISO 8601 week number, reproduced below from the standard algorithm (the
week containing the year's first Thursday is week 1); `dt.quarter` is
`(month - 1) / 3 + 1`. -/

/-- Gregorian leap-year rule. -/
def isLeapYear (y : Nat) : Bool :=
  y % 4 == 0 && (y % 100 != 0 || y % 400 == 0)

/-- Number of days in a month of a given year. -/
def daysInMonth (y m : Nat) : Nat :=
  if m = 2 then (if isLeapYear y then 29 else 28)
  else if m = 4 ∨ m = 6 ∨ m = 9 ∨ m = 11 then 30
  else 31

/-- A well-formed calendar date in the proleptic Gregorian calendar,
year 1 onward (every `order_date` a Python `datetime.date` can carry). -/
def Date.Valid (d : Date) : Prop :=
  1 ≤ d.year ∧ 1 ≤ d.month ∧ d.month ≤ 12 ∧
    1 ≤ d.day ∧ d.day ≤ daysInMonth d.year d.month

instance (d : Date) : Decidable d.Valid := by
  unfold Date.Valid
  infer_instance

/-- 1-based ordinal of the date within its year. -/
def dayOfYear (d : Date) : Nat :=
  ((List.range (d.month - 1)).map fun i => daysInMonth d.year (i + 1)).sum + d.day

/-- Number of leap years in `1 .. n`. -/
def leapCount (n : Nat) : Nat := n / 4 - n / 100 + n / 400

/-- Days elapsed since 0001-01-01 (which is day 0, a Monday in the
proleptic Gregorian calendar). -/
def rataDie (d : Date) : Nat :=
  365 * (d.year - 1) + leapCount (d.year - 1) + dayOfYear d - 1

/-- ISO weekday: 1 = Monday, ..., 7 = Sunday. -/
def isoWeekday (d : Date) : Nat := rataDie d % 7 + 1

/-- A year has 53 ISO weeks exactly when it starts on a Thursday, or is a
leap year starting on a Wednesday. -/
def isLongYear (y : Nat) : Bool :=
  isoWeekday ⟨y, 1, 1⟩ == 4 || (isLeapYear y && isoWeekday ⟨y, 1, 1⟩ == 3)

/-- Number of ISO weeks in a year (52 or 53). -/
def weeksInYear (y : Nat) : Nat := if isLongYear y then 53 else 52

/-- ISO 8601 week number of a date, as `dt.isocalendar().week` returns it:
`(dayOfYear - weekday + 10) / 7`, clamped into the previous or next
week-numbering year at the boundaries.  Carries no year component. -/
def isoWeek (d : Date) : Nat :=
  let w := (dayOfYear d + 10 - isoWeekday d) / 7
  if w < 1 then weeksInYear (d.year - 1)
  else if weeksInYear d.year < w then 1
  else w

/-- Two-digit zero padding, as `strftime` renders months and days. -/
def pad2 (n : Nat) : String :=
  if n < 10 then "0" ++ toString n else toString n

/-- Monthly bucket key: `dt.strftime('%Y-%m')` (`analytics.py` line 237). -/
def yearMonthKey (d : Date) : String :=
  toString d.year ++ "-" ++ pad2 d.month

/-- Yearly bucket key: `dt.year` (`analytics.py` line 238). -/
def yearKey (d : Date) : Nat := d.year

/-- Weekly bucket key: `dt.isocalendar().week` (`analytics.py` line 240). -/
def weekKey (d : Date) : Nat := isoWeek d

/-- Quarterly bucket key: `dt.quarter` (`analytics.py` line 241). -/
def quarterKey (d : Date) : Nat := (d.month - 1) / 3 + 1

/-- Daily bucket key: `dt.strftime('%Y-%m-%d')` (`analytics.py`
lines 244-246, 260-261). -/
def dailyKey (d : Date) : String :=
  toString d.year ++ "-" ++ pad2 d.month ++ "-" ++ pad2 d.day

/-! ## Ranking engine (`analytics.py` lines 325-329, 354-358)

`DataFrame.nlargest(n, col)` with the default `keep='first'` is equivalent
to a stable descending sort on `col` followed by taking the first `n`
rows. -/

/-- Descending comparison on a metric, as a `Bool` sort relation. -/
def descBy {α : Type} (f : α → Rat) : α → α → Bool := fun a b => f b ≤ f a

/-- `rows.nlargest(n, metric)` with ties kept in input order
(`keep='first'`): stable descending mergesort, then the first `n` rows. -/
def nlargestBy {α : Type} (n : Nat) (f : α → Rat) (xs : List α) : List α :=
  (xs.mergeSort (descBy f)).take n

/-- `product_sales = df.groupby('product').agg({...}).nlargest(10, 'sales')`
(`analytics.py` lines 325-329). -/
def product_sales (df : List SaleRecord) : List (AggRow String) :=
  nlargestBy 10 (fun g => g.sales) (groupAgg SaleRecord.product df)

/-- `customer_sales = df.groupby('customer').agg({...}).nlargest(10, 'sales')`
(`analytics.py` lines 354-358). -/
def customer_sales (df : List SaleRecord) : List (AggRow String) :=
  nlargestBy 10 (fun g => g.sales) (groupAgg SaleRecord.customer df)

/-! ## Record Store (`database.py`)

The store is embedded as the list of persisted rows.  SQLite's
`AUTOINCREMENT` id and `CURRENT_TIMESTAMP` are modelled by `nextId` and an
explicit `now` tick.  The schema's `CONSTRAINT chk_profit CHECK (profit <=
sales)` (`database.py` line 38) aborts any statement that would leave a
written row violating it; the enclosing `try/except` then returns the
failure value with nothing committed. -/

/-- The next `AUTOINCREMENT` id: one past the largest id ever used; with
no deletions of the maximum this is `max id + 1`. -/
def nextId (store : List SaleRecord) : Nat :=
  (store.map SaleRecord.id).foldr max 0 + 1

/-- Python's `str.strip()`: remove whitespace characters from both ends. -/
def pyStrip (s : String) : String :=
  ⟨((s.data.dropWhile Char.isWhitespace).reverse.dropWhile
      Char.isWhitespace).reverse⟩

/-- `add_sale_record(order_date, product, customer, sales, profit, quantity)`
(`database.py` lines 49-83).  Python's `not product` is true exactly on the
empty string — a whitespace-only name passes this check and is persisted
stripped.  Returns the new store, the success flag and the message. -/
def add_sale_record (now : Nat) (store : List SaleRecord) (order_date : Date)
    (product customer : String) (sales profit : Rat) (quantity : Int) :
    List SaleRecord × Bool × String :=
  if product = "" ∨ customer = "" then
    (store, false, "Product and Customer are required")
  else if sales < profit then
    (store, false, "Profit cannot be greater than sales amount")
  else if quantity ≤ 0 then
    (store, false, "Quantity must be greater than 0")
  else
    (store ++ [{ id := nextId store
                 order_date := order_date
                 product := pyStrip product
                 customer := pyStrip customer
                 sales := sales
                 profit := profit
                 quantity := quantity
                 created_at := now }],
     true,
     "Sale record " ++ toString (nextId store) ++ " added successfully")

/-- Sort relation of `ORDER BY order_date DESC, created_at DESC`
(`database.py` line 93). -/
def fetchOrder (a b : SaleRecord) : Bool :=
  if a.order_date = b.order_date then b.created_at ≤ a.created_at
  else Date.le b.order_date a.order_date

/-- `get_all_sales()` (`database.py` lines 85-98): on a successful read it
returns every row ordered by (`order_date` desc, `created_at` desc); when
the underlying read raises (`conn` is an `Except` carrying either the rows
or the I/O error), the `except` branch prints and returns `pd.DataFrame()`
— the empty table. -/
def get_all_sales (conn : Except String (List SaleRecord)) : List SaleRecord :=
  match conn with
  | .ok rows => rows.mergeSort fetchOrder
  | .error _ => []

/-- `delete_sale_record(record_id)` (`database.py` lines 100-109): SQL
`DELETE FROM sales WHERE id = ?`, returning `cursor.rowcount > 0`. -/
def delete_sale_record (store : List SaleRecord) (record_id : Nat) :
    List SaleRecord × Bool :=
  (store.filter fun r => r.id ≠ record_id,
   store.any fun r => r.id == record_id)

/-- The column values an `update_sale_record(record_id, **updates)` call may
carry (`database.py` lines 111-128): any subset of the mutable data
columns. -/
structure RecUpdate where
  order_date : Option Date := none
  product : Option String := none
  customer : Option String := none
  sales : Option Rat := none
  profit : Option Rat := none
  quantity : Option Int := none
  deriving DecidableEq, Repr

/-- The row produced by applying the `SET` clause to one matched row. -/
def applyUpdate (u : RecUpdate) (r : SaleRecord) : SaleRecord :=
  { r with
    order_date := u.order_date.getD r.order_date
    product := u.product.getD r.product
    customer := u.customer.getD r.customer
    sales := u.sales.getD r.sales
    profit := u.profit.getD r.profit
    quantity := u.quantity.getD r.quantity }

/-- Whether an `updates` dict names no columns at all: then
`", ".join([...])` is the empty string and the built statement is the
malformed `UPDATE sales SET  WHERE id = ?`. -/
def RecUpdate.isEmpty (u : RecUpdate) : Bool :=
  u.order_date.isNone && u.product.isNone && u.customer.isNone &&
    u.sales.isNone && u.profit.isNone && u.quantity.isNone

/-- `update_sale_record(record_id, **updates)` (`database.py` lines
111-128): `UPDATE sales SET ... WHERE id = ?`.  With an empty `updates`
dict the built SQL has an empty `SET` clause, so SQLite raises an
`OperationalError`, the `except` branch returns `False` and nothing is
committed.  If any matched row would violate `chk_profit`, SQLite likewise
aborts the statement and `False` is returned with nothing committed.
Otherwise every matched row is rewritten and the function returns `True` —
the affected-row count is never consulted. -/
def update_sale_record (store : List SaleRecord) (record_id : Nat)
    (u : RecUpdate) : List SaleRecord × Bool :=
  if u.isEmpty then (store, false)
  else if store.any fun r =>
      r.id == record_id && decide ((applyUpdate u r).sales < (applyUpdate u r).profit)
  then (store, false)
  else (store.map fun r => if r.id = record_id then applyUpdate u r else r, true)

/-- One mutating call against the store. -/
inductive StoreOp where
  | add (now : Nat) (order_date : Date) (product customer : String)
      (sales profit : Rat) (quantity : Int)
  | update (record_id : Nat) (u : RecUpdate)
  | delete (record_id : Nat)

/-- The store state after one call. -/
def applyOp (store : List SaleRecord) : StoreOp → List SaleRecord
  | .add now d p c s pr q => (add_sale_record now store d p c s pr q).1
  | .update i u => (update_sale_record store i u).1
  | .delete i => (delete_sale_record store i).1

/-- The store state reached from the empty store by a sequence of calls. -/
def runOps (ops : List StoreOp) : List SaleRecord :=
  ops.foldl applyOp []

/-- A persisted record with zero sales: `add_sale_record` accepts
`sales = 0, profit = 0, quantity = 1`, so such a row is reachable. -/
def zeroSalesRec : SaleRecord :=
  { id := 1
    order_date := ⟨2024, 1, 1⟩
    product := "Widget"
    customer := "Ann"
    sales := 0
    profit := 0
    quantity := 1
    created_at := 0 }

/-- A concrete valid record (id 1) for witness instantiations. -/
def recW : SaleRecord :=
  { id := 1
    order_date := ⟨2024, 1, 1⟩
    product := "Widget"
    customer := "Ann"
    sales := 100
    profit := 20
    quantity := 2
    created_at := 0 }

/-- A second concrete valid record (id 2) for witness instantiations. -/
def recG : SaleRecord :=
  { id := 2
    order_date := ⟨2024, 2, 1⟩
    product := "Gadget"
    customer := "Bob"
    sales := 150
    profit := 0
    quantity := 1
    created_at := 1 }

/-! # Theorems -/

/-! ## Helper lemmas -/

/-- Dividing by a zero denominator never yields a finite pandas value. -/
theorem pandasDiv_zero_not_finite (a : Rat) :
    (pandasDiv a 0).isFinite = false := by
  unfold pandasDiv
  split_ifs with h1 h2 h3
  · exact absurd rfl h1
  · rfl
  · rfl
  · rfl

/-- Scaling by 100 keeps finiteness unchanged. -/
theorem pandasMul100_isFinite (x : PFloat) :
    (pandasMul100 x).isFinite = x.isFinite := by
  cases x <;> rfl

/-- C2 helper stays below; generic sum split over a Boolean predicate. -/
theorem sum_map_filter_split {α M : Type} [AddCommMonoid M]
    (p : α → Bool) (f : α → M) (l : List α) :
    ((l.filter p).map f).sum + ((l.filter fun a => !p a).map f).sum
      = (l.map f).sum := by
  induction l with
  | nil => simp
  | cons a t ih =>
    by_cases h : p a
    · simp only [List.filter_cons, h, Bool.not_true, if_pos, List.map_cons,
        List.sum_cons, if_neg Bool.false_ne_true]
      rw [add_assoc, ih]
    · simp only [List.filter_cons, h, Bool.not_false, if_pos]
      rw [if_neg (by simp [h]), List.map_cons, List.sum_cons, add_left_comm, ih,
        List.map_cons, List.sum_cons]

/-- Fiberwise summation: summing a field over the groups of pairwise
distinct keys that cover a record list recovers the sum over the list. -/
theorem sum_over_fibers {κ M : Type} [DecidableEq κ] [AddCommMonoid M]
    (key : SaleRecord → κ) (f : SaleRecord → M) :
    ∀ ks : List κ, ks.Nodup → ∀ df : List SaleRecord,
      (∀ r ∈ df, key r ∈ ks) →
      (ks.map fun k => (((df.filter fun r => key r = k).map f)).sum).sum
        = (df.map f).sum := by
  intro ks
  induction ks with
  | nil =>
    intro _ df hcov
    cases df with
    | nil => simp
    | cons r t => exact absurd (hcov r (by simp)) (by simp)
  | cons k ks ih =>
    intro hnd df hcov
    have hk : k ∉ ks := (List.nodup_cons.mp hnd).1
    have hnd' : ks.Nodup := (List.nodup_cons.mp hnd).2
    have hcong : ∀ k' ∈ ks,
        ((df.filter fun r => !decide (key r = k)).filter fun r => key r = k')
          = df.filter fun r => key r = k' := by
      intro k' hk'
      rw [List.filter_filter]
      apply List.filter_congr
      intro r _
      have hne : k' ≠ k := fun he => hk (he ▸ hk')
      by_cases h : key r = k'
      · simp [h, hne]
      · simp [h]
    have hcov' : ∀ r ∈ df.filter fun r => !decide (key r = k), key r ∈ ks := by
      intro r hr
      rcases List.mem_filter.mp hr with ⟨hrdf, hne⟩
      have := hcov r hrdf
      simp only [List.mem_cons] at this
      rcases this with h | h
      · simp [h] at hne
      · exact h
    calc (((k :: ks).map fun k =>
            (((df.filter fun r => key r = k).map f)).sum).sum)
        = ((df.filter fun r => key r = k).map f).sum
            + (ks.map fun k' =>
                (((df.filter fun r => key r = k').map f)).sum).sum := by
          simp
      _ = ((df.filter fun r => key r = k).map f).sum
            + (ks.map fun k' =>
                ((((df.filter fun r => !decide (key r = k)).filter
                    fun r => key r = k').map f)).sum).sum := by
          congr 1
          apply congrArg List.sum
          apply List.map_congr_left
          intro k' hk'
          rw [hcong k' hk']
      _ = ((df.filter fun r => key r = k).map f).sum
            + ((df.filter fun r => !decide (key r = k)).map f).sum := by
          rw [ih hnd' _ hcov']
      _ = (df.map f).sum := by
          have := sum_map_filter_split (fun r => decide (key r = k)) f df
          simpa using this

/-- The two halves of a Boolean filter split a list's length. -/
theorem length_filter_split {α : Type} (p : α → Bool) (l : List α) :
    (l.filter p).length + (l.filter fun a => !p a).length = l.length := by
  simpa using (List.filter_append_perm p l).length_eq

/-! ## C1 — zero-denominator policy for the derived ratio metrics -/

/-- C1 (counterexample): the claim that every ratio metric evaluates to
exactly `0` on a zero denominator fails for the per-row metrics.  A record
with `sales = 0` (which `add_sale_record` accepts) yields an aggregate row
with summed sales `0`, and both the per-product `profit_margin` of
`profit_analysis` and the trend `profit_margin` column evaluate to NaN at
that row — not `0`. -/
theorem ratio_zero_guard_cex :
    total_sales [zeroSalesRec] = 0 ∧
    (profit_analysis [zeroSalesRec]).map ProfitRow.profit_margin
      = [PFloat.nan] ∧
    trendProfitMargin
        (groupAgg (fun r => yearMonthKey r.order_date) [zeroSalesRec])
      = [PFloat.nan] ∧
    PFloat.nan ≠ PFloat.finite 0 := by
  refine ⟨?_, ?_, ?_, by simp⟩
  · simp [total_sales, zeroSalesRec]
  · simp [profit_analysis, groupAgg, zeroSalesRec, total_sales, total_profit,
      pandasDiv, pandasMul100]
  · simp [trendProfitMargin, groupAgg, zeroSalesRec, total_sales, total_profit,
      pandasDiv, pandasMul100]

/-- C1 (amended): the KPI summary ratios (`avg_order_value`,
`profit_margin`, `avg_profit_per_order`, `analytics.py` lines 186-188) are
zero-guarded and evaluate to exactly `0` on a zero denominator; the per-row
ratios (`trend_data['profit_margin']` line 298 and the `profit_analysis`
columns lines 390-392) carry no guard and evaluate to a non-finite pandas
value (NaN or ±infinity, never `0`, never an exception) whenever the row's
denominator is `0`. -/
theorem ratio_zero_guards_amended :
    (∀ df : List SaleRecord, total_orders df = 0 →
      avg_order_value df = 0 ∧ avg_profit_per_order df = 0) ∧
    (∀ df : List SaleRecord, total_sales df = 0 → profit_margin_kpi df = 0) ∧
    (∀ κ : Type, ∀ rows : List (AggRow κ), ∀ g ∈ rows, g.sales = 0 →
      pandasMul100 (pandasDiv g.profit g.sales) ∈ trendProfitMargin rows ∧
      (pandasMul100 (pandasDiv g.profit g.sales)).isFinite = false) ∧
    (∀ df : List SaleRecord, ∀ row ∈ profit_analysis df,
      (row.sales = 0 → row.profit_margin.isFinite = false) ∧
      ((row.quantity : Rat) = 0 →
        row.avg_price.isFinite = false ∧
        row.profit_per_unit.isFinite = false)) := by
  refine ⟨?_, ?_, ?_, ?_⟩
  · intro df h
    constructor <;> simp [avg_order_value, avg_profit_per_order, h]
  · intro df h
    simp [profit_margin_kpi, h]
  · intro κ rows g hg hs
    refine ⟨List.mem_map_of_mem _ hg, ?_⟩
    rw [hs, pandasMul100_isFinite, pandasDiv_zero_not_finite]
  · intro df row hrow
    rcases List.mem_map.mp hrow with ⟨g, _, hgr⟩
    subst hgr
    dsimp only
    refine ⟨fun hs => ?_, fun hq => ⟨?_, ?_⟩⟩
    · rw [hs, pandasMul100_isFinite]
      exact pandasDiv_zero_not_finite g.profit
    · rw [hq]
      exact pandasDiv_zero_not_finite g.sales
    · rw [hq]
      exact pandasDiv_zero_not_finite g.profit

/-- C1 (witness): the amended statement applied at concrete inputs — the
empty filtered view for the KPI guards, a zero-sales aggregate row for the
trend column, and the zero-sales product group of `profit_analysis`. -/
theorem ratio_zero_guards_amended_witness :
    avg_order_value [] = 0 ∧ profit_margin_kpi [] = 0 ∧
    (pandasMul100 (pandasDiv 0 0)).isFinite = false ∧
    PFloat.isFinite PFloat.nan = false := by
  refine ⟨(ratio_zero_guards_amended.1 [] rfl).1,
          ratio_zero_guards_amended.2.1 [] rfl,
          (ratio_zero_guards_amended.2.2.1 Nat [⟨1, 0, 0, 0, 0⟩]
            ⟨1, 0, 0, 0, 0⟩ (by simp) rfl).2,
          ?_⟩
  have hmem : (⟨"Widget", 0, 0, 1, .nan, .finite 0, .finite 0⟩ : ProfitRow)
      ∈ profit_analysis [zeroSalesRec] := by
    simp [profit_analysis, groupAgg, zeroSalesRec, total_sales, total_profit,
      pandasDiv, pandasMul100]
  exact (ratio_zero_guards_amended.2.2.2 [zeroSalesRec]
      ⟨"Widget", 0, 0, 1, .nan, .finite 0, .finite 0⟩ hmem).1 rfl

/-! ## C2 — filter conjunction -/

/-- C2: a record is in the Filtered View produced by `applyFilters` exactly
when it is in the full set and satisfies all four predicates: inside the
inclusive date range (when one is supplied), matching the product selector
(unless it is `"All"`, case-sensitively), and meeting both minimum
thresholds. -/
theorem filter_conjunction (dateRange : Option (Date × Date)) (p : String)
    (ms mp : Rat) (dfAll : List SaleRecord) (r : SaleRecord) :
    r ∈ applyFilters dateRange p ms mp dfAll ↔
      r ∈ dfAll ∧
      (∀ se : Date × Date, dateRange = some se →
        Date.le se.1 r.order_date ∧ Date.le r.order_date se.2) ∧
      (p = "All" ∨ r.product = p) ∧ ms ≤ r.sales ∧ mp ≤ r.profit := by
  unfold applyFilters
  cases dateRange with
  | none =>
    by_cases hp : p = "All" <;>
      simp [List.mem_filter, hp] <;> tauto
  | some se =>
    by_cases hp : p = "All" <;>
      simp [List.mem_filter, hp] <;> tauto

/-! ## C3 — aggregation sum invariant -/

/-- C3: for any record list and any grouping key (time bucket, product or
customer), the aggregate rows' summed `sales` equal the list's total sales,
likewise for `profit` and `quantity`, and each row's `count` (the
`'id': 'count'` / `transaction_count` column) is the number of records
carrying that row's key — no record is dropped or double-counted. -/
theorem aggregation_sum_invariant {κ : Type} [DecidableEq κ]
    (key : SaleRecord → κ) (df : List SaleRecord) :
    ((groupAgg key df).map AggRow.sales).sum = total_sales df ∧
    ((groupAgg key df).map AggRow.profit).sum = total_profit df ∧
    ((groupAgg key df).map AggRow.quantity).sum
      = (df.map SaleRecord.quantity).sum ∧
    ∀ g ∈ groupAgg key df, g.count = df.countP fun r => key r = g.key := by
  have hnd := List.nodup_dedup (df.map key)
  have hcov : ∀ r ∈ df, key r ∈ (df.map key).dedup := fun r hr =>
    List.mem_dedup.mpr (List.mem_map_of_mem key hr)
  refine ⟨?_, ?_, ?_, ?_⟩
  · simpa [groupAgg, total_sales, List.map_map, Function.comp] using
      sum_over_fibers key SaleRecord.sales (df.map key).dedup hnd df hcov
  · simpa [groupAgg, total_profit, List.map_map, Function.comp] using
      sum_over_fibers key SaleRecord.profit (df.map key).dedup hnd df hcov
  · simpa [groupAgg, List.map_map, Function.comp] using
      sum_over_fibers key SaleRecord.quantity (df.map key).dedup hnd df hcov
  · intro g hg
    rcases List.mem_map.mp hg with ⟨k, _, hk⟩
    subst hk
    simp [List.countP_eq_length_filter]

/-- C3 (witness): the invariant applied to the concrete monthly scenario of
the spec — grouping the one-record list by product. -/
theorem aggregation_sum_invariant_witness :
    ((groupAgg SaleRecord.product [zeroSalesRec]).map AggRow.sales).sum
      = total_sales [zeroSalesRec] ∧
    (groupAgg SaleRecord.product [zeroSalesRec]).length = 1 := by
  refine ⟨(aggregation_sum_invariant SaleRecord.product [zeroSalesRec]).1, ?_⟩
  simp [groupAgg, zeroSalesRec]

/-! ## C5 — period bucket keys -/

/-- `weeksInYear` only takes the values 52 and 53. -/
theorem weeksInYear_bounds (y : Nat) :
    52 ≤ weeksInYear y ∧ weeksInYear y ≤ 53 := by
  unfold weeksInYear
  split_ifs <;> omega

/-- C5: for every well-formed date the Weekly bucket key is the ISO week
number, an integer in 1–53 with no year component (so 2023-01-02 and
2024-01-01 — both ISO week 1 of their years — collide into one bucket);
the Quarterly key is the quarter number 1–4, equal for equal months in
different years; the Yearly key is the calendar year; the Monthly key is
the `YYYY-MM` token and the Daily key the `YYYY-MM-DD` token, which do not
collide across years. -/
theorem period_bucket_keys (d : Date) (h : d.Valid) :
    (1 ≤ weekKey d ∧ weekKey d ≤ 53) ∧
    (1 ≤ quarterKey d ∧ quarterKey d ≤ 4) ∧
    yearKey d = d.year ∧
    yearMonthKey d = toString d.year ++ "-" ++ pad2 d.month ∧
    dailyKey d = toString d.year ++ "-" ++ pad2 d.month ++ "-" ++ pad2 d.day ∧
    (weekKey ⟨2023, 1, 2⟩ = 1 ∧ weekKey ⟨2024, 1, 1⟩ = 1) ∧
    quarterKey ⟨2023, 2, 1⟩ = quarterKey ⟨2024, 2, 1⟩ ∧
    yearMonthKey ⟨2023, 5, 1⟩ ≠ yearMonthKey ⟨2024, 5, 1⟩ := by
  obtain ⟨hy, hm1, hm2, hd1, hd2⟩ := h
  refine ⟨?_, ⟨?_, ?_⟩, rfl, rfl, rfl, ⟨by decide, by decide⟩, by decide,
    by decide⟩
  · unfold weekKey isoWeek
    have h1 := weeksInYear_bounds (d.year - 1)
    have h2 := weeksInYear_bounds d.year
    dsimp only
    split_ifs <;> omega
  · unfold quarterKey
    omega
  · unfold quarterKey
    omega

/-- C5 (witness): the bucket-key bounds applied at the concrete date
2024-03-15 (ISO week 11, quarter 1). -/
theorem period_bucket_keys_witness :
    (1 ≤ weekKey ⟨2024, 3, 15⟩ ∧ weekKey ⟨2024, 3, 15⟩ ≤ 53) ∧
    (1 ≤ quarterKey ⟨2024, 3, 15⟩ ∧ quarterKey ⟨2024, 3, 15⟩ ≤ 4) ∧
    yearKey ⟨2024, 3, 15⟩ = 2024 ∧
    yearMonthKey ⟨2024, 3, 15⟩ = toString 2024 ++ "-" ++ pad2 3 ∧
    dailyKey ⟨2024, 3, 15⟩
      = toString 2024 ++ "-" ++ pad2 3 ++ "-" ++ pad2 15 ∧
    (weekKey ⟨2023, 1, 2⟩ = 1 ∧ weekKey ⟨2024, 1, 1⟩ = 1) ∧
    quarterKey ⟨2023, 2, 1⟩ = quarterKey ⟨2024, 2, 1⟩ ∧
    yearMonthKey ⟨2023, 5, 1⟩ ≠ yearMonthKey ⟨2024, 5, 1⟩ :=
  period_bucket_keys ⟨2024, 3, 15⟩ (by decide)

/-! ## C6 — Top-N bound -/

/-- Taking the first `n` rows of the sorted frame yields at most `n`. -/
theorem nlargestBy_length_le {α : Type} (n : Nat) (f : α → Rat)
    (xs : List α) : (nlargestBy n f xs).length ≤ n := by
  simp only [nlargestBy, List.length_take]
  omega

/-- C6: `nlargestBy` returns at most `n` rows; every returned row's metric
is at least every non-returned row's metric (the non-returned rows being
what remains of the stable descending sort); and when the input has at most
`n` rows, the result is all of them (as a permutation — `nlargest` reorders
by the metric).  In particular the two Top-10 rankings never exceed 10
rows. -/
theorem topn_bound {α : Type} (n : Nat) (f : α → Rat) (xs : List α) :
    (nlargestBy n f xs).length ≤ n ∧
    (∀ a ∈ nlargestBy n f xs, ∀ b ∈ (xs.mergeSort (descBy f)).drop n,
      f b ≤ f a) ∧
    (xs.length ≤ n → (nlargestBy n f xs).Perm xs) ∧
    (∀ df : List SaleRecord,
      (product_sales df).length ≤ 10 ∧ (customer_sales df).length ≤ 10) := by
  refine ⟨nlargestBy_length_le n f xs, ?_, ?_, ?_⟩
  · have hs := @List.sorted_mergeSort α (descBy f)
      (fun a b c hab hbc => by
        simp only [descBy, decide_eq_true_eq] at *
        exact le_trans hbc hab)
      (fun a b => by
        simp only [descBy, Bool.or_eq_true, decide_eq_true_eq]
        exact le_total (f b) (f a))
      xs
    rw [← List.take_append_drop n (xs.mergeSort (descBy f)),
      List.pairwise_append] at hs
    intro a ha b hb
    have := hs.2.2 a ha b hb
    simpa [descBy] using this
  · intro hle
    unfold nlargestBy
    rw [List.take_of_length_le (by rw [List.length_mergeSort]; exact hle)]
    exact List.mergeSort_perm xs _
  · intro df
    exact ⟨nlargestBy_length_le 10 _ _, nlargestBy_length_le 10 _ _⟩

/-- C6 (witness): the Top-N contract applied at concrete inputs — taking
the top 2 of the metrics 1, 3, 2 keeps a value at least as large as the one
left behind, and a Top-5 of three rows returns all three. -/
theorem topn_bound_witness :
    (nlargestBy 2 id [(3 : Rat), 2, 1]).length ≤ 2 ∧
    id (1 : Rat) ≤ id 3 ∧
    (nlargestBy 5 id [(3 : Rat), 2, 1]).Perm [3, 2, 1] := by
  have hms : List.mergeSort [(3 : Rat), 2, 1] (descBy id) = [3, 2, 1] :=
    List.mergeSort_of_sorted (by decide)
  refine ⟨(topn_bound 2 id [3, 2, 1]).1, ?_,
    (topn_bound 5 id [3, 2, 1]).2.2.1 (by simp)⟩
  refine (topn_bound 2 id [3, 2, 1]).2.1 3 ?_ 1 ?_
  · simp [nlargestBy, hms]
  · simp [hms]

/-! ## C4 — insert validation -/

/-- C4 (counterexample): `add_sale_record` does not reject a product that
is empty *as a trimmed label*.  Python's `if not product` only fires on the
empty string, so a whitespace-only product passes validation, the record is
persisted (the count grows to 1), and the stored `product` is the empty
string after `.strip()`. -/
theorem add_sale_record_trim_cex :
    (add_sale_record 0 [] ⟨2024, 1, 1⟩ " " "Ann" 100 20 1).2.1 = true ∧
    (add_sale_record 0 [] ⟨2024, 1, 1⟩ " " "Ann" 100 20 1).1.length = 1 ∧
    pyStrip " " = "" := by
  refine ⟨by decide, by decide, by decide⟩

/-- C4 (amended): `add_sale_record` fails — returning `success = false`
with a human-readable message and leaving the store unchanged — exactly
when the *untrimmed* product or customer is the empty string, or
`profit > sales`, or `quantity ≤ 0`; otherwise it appends exactly one new
record (with product and customer stripped, so a whitespace-only label is
persisted as empty). -/
theorem add_sale_record_spec (now : Nat) (store : List SaleRecord) (d : Date)
    (p c : String) (s pr : Rat) (q : Int) :
    ((add_sale_record now store d p c s pr q).2.1 = false ↔
      p = "" ∨ c = "" ∨ s < pr ∨ q ≤ 0) ∧
    ((add_sale_record now store d p c s pr q).2.1 = false →
      (add_sale_record now store d p c s pr q).1 = store) ∧
    ((add_sale_record now store d p c s pr q).2.1 = true →
      (add_sale_record now store d p c s pr q).1 =
        store ++ [{ id := nextId store
                    order_date := d
                    product := pyStrip p
                    customer := pyStrip c
                    sales := s
                    profit := pr
                    quantity := q
                    created_at := now }]) := by
  unfold add_sale_record
  split_ifs with h1 h2 h3 <;> (simp_all; try tauto)

/-- C4 (witness): the amended contract applied at a concrete valid insert
into the empty store. -/
theorem add_sale_record_spec_witness :
    (add_sale_record 0 [] ⟨2024, 1, 1⟩ "Widget" "Ann" 100 20 2).1 =
      [{ id := 1
         order_date := ⟨2024, 1, 1⟩
         product := "Widget"
         customer := "Ann"
         sales := 100
         profit := 20
         quantity := 2
         created_at := 0 }] := by
  have h := (add_sale_record_spec 0 [] ⟨2024, 1, 1⟩ "Widget" "Ann" 100 20 2).2.2
    (by decide)
  exact h.trans (by decide)

/-! ## C7 — the profit ≤ sales invariant across all reachable states -/

/-- Each store call preserves `profit ≤ sales` for every persisted row:
inserts are validated, updates that would violate `chk_profit` are aborted
by the schema constraint, and deletes only remove rows. -/
theorem applyOp_preserves (store : List SaleRecord) (op : StoreOp)
    (h : ∀ r ∈ store, r.profit ≤ r.sales) :
    ∀ r ∈ applyOp store op, r.profit ≤ r.sales := by
  cases op with
  | add now d p c s pr q =>
    intro r hr
    simp only [applyOp] at hr
    unfold add_sale_record at hr
    split_ifs at hr with h1 h2 h3
    · exact h r hr
    · exact h r hr
    · exact h r hr
    · simp only [List.mem_append, List.mem_singleton] at hr
      rcases hr with hr | hr
      · exact h r hr
      · subst hr
        exact le_of_not_lt h2
  | update i u =>
    intro r hr
    simp only [applyOp] at hr
    unfold update_sale_record at hr
    split_ifs at hr with hemp hchk
    · exact h r hr
    · exact h r hr
    · simp only [List.any_eq_true, not_exists, not_and, Bool.and_eq_true,
        beq_iff_eq, decide_eq_true_eq] at hchk
      rcases List.mem_map.mp hr with ⟨r0, hr0, heq⟩
      by_cases hid : r0.id = i
      · rw [if_pos hid] at heq
        subst heq
        exact le_of_not_lt (hchk r0 hr0 hid)
      · rw [if_neg hid] at heq
        subst heq
        exact h r0 hr0
  | delete i =>
    intro r hr
    simp only [applyOp] at hr
    unfold delete_sale_record at hr
    exact h r (List.mem_filter.mp hr).1

/-- Folding any call sequence over a store that satisfies the invariant
yields a store that still satisfies it. -/
theorem foldl_applyOp_preserves (ops : List StoreOp) :
    ∀ store : List SaleRecord, (∀ x ∈ store, x.profit ≤ x.sales) →
      ∀ x ∈ ops.foldl applyOp store, x.profit ≤ x.sales := by
  induction ops with
  | nil =>
    intro store hs x hx
    exact hs x hx
  | cons op t ih =>
    intro store hs x hx
    exact ih (applyOp store op) (applyOp_preserves store op hs) x hx

/-- C7: in every store state reachable from the empty store by any
sequence of `add_sale_record`, `update_sale_record` and
`delete_sale_record` calls, every persisted record satisfies
`profit ≤ sales`. -/
theorem store_invariant (ops : List StoreOp) (r : SaleRecord)
    (hr : r ∈ runOps ops) : r.profit ≤ r.sales :=
  foldl_applyOp_preserves ops [] (by simp) r hr

/-- C7 (witness): the invariant read off the state reached by one concrete
insert. -/
theorem store_invariant_witness :
    ({ id := 1
       order_date := ⟨2024, 1, 1⟩
       product := "Widget"
       customer := "Ann"
       sales := 100
       profit := 20
       quantity := 2
       created_at := 0 } : SaleRecord).profit ≤
    ({ id := 1
       order_date := ⟨2024, 1, 1⟩
       product := "Widget"
       customer := "Ann"
       sales := 100
       profit := 20
       quantity := 2
       created_at := 0 } : SaleRecord).sales := by
  refine store_invariant [.add 0 ⟨2024, 1, 1⟩ "Widget" "Ann" 100 20 2] _ ?_
  decide

/-! ## C8 — store-access failure on fetch-all -/

/-- C8 (counterexample): a failed read is *not* distinguishable from the
valid empty result — `get_all_sales` swallows the collaborator I/O error
and returns the empty table, the same value a successful read of an empty
store returns. -/
theorem get_all_sales_error_cex :
    get_all_sales (Except.error "database is locked") = [] ∧
    get_all_sales (Except.ok []) = [] ∧
    get_all_sales (Except.error "database is locked")
      = get_all_sales (Except.ok []) := by
  refine ⟨rfl, by simp [get_all_sales], by simp [get_all_sales]⟩

/-- C8 (amended): when the store read fails, `get_all_sales` returns the
empty record list — a value indistinguishable from the valid empty
"no data" result of a successful read (it never raises); on a successful
read it returns exactly the stored records (reordered by the fetch sort). -/
theorem get_all_sales_error_amended (e : String) (rows : List SaleRecord) :
    get_all_sales (Except.error e) = [] ∧
    get_all_sales (Except.ok []) = [] ∧
    (get_all_sales (Except.ok rows)).Perm rows := by
  refine ⟨rfl, by simp [get_all_sales], ?_⟩
  simpa [get_all_sales] using List.mergeSort_perm rows fetchOrder

/-! ## C9 — delete-by-id semantics -/

/-- C9: on any store with pairwise distinct ids (which the `AUTOINCREMENT`
primary key guarantees), deleting an absent id returns `false` and leaves
the store unchanged; deleting a present id returns `true`, removes exactly
that one record (the count drops by one), keeps every other record, and a
subsequent `get_all_sales` of the resulting store contains no record with
the deleted id. -/
theorem delete_spec (store : List SaleRecord) (i : Nat)
    (hnd : (store.map SaleRecord.id).Nodup) :
    ((∀ r ∈ store, r.id ≠ i) → delete_sale_record store i = (store, false)) ∧
    (∀ r ∈ store, r.id = i →
      (delete_sale_record store i).2 = true ∧
      (delete_sale_record store i).1.length + 1 = store.length ∧
      (∀ s ∈ store, s.id ≠ i → s ∈ (delete_sale_record store i).1) ∧
      (∀ s ∈ (delete_sale_record store i).1, s ∈ store ∧ s.id ≠ i) ∧
      (∀ s ∈ get_all_sales (Except.ok (delete_sale_record store i).1),
        s.id ≠ i)) := by
  constructor
  · intro hall
    unfold delete_sale_record
    have h1 : (store.filter fun r => r.id ≠ i) = store :=
      List.filter_eq_self.mpr fun r hr => by simp [hall r hr]
    have h2 : (store.any fun r => r.id == i) = false :=
      List.any_eq_false.mpr fun r hr => by simp [hall r hr]
    rw [h1, h2]
  · intro r hr hrid
    have hmemid : i ∈ store.map SaleRecord.id :=
      List.mem_map.mpr ⟨r, hr, hrid⟩
    have hc : (store.map SaleRecord.id).count i = 1 :=
      List.count_eq_one_of_mem hnd hmemid
    have hc2 : (store.countP fun s => s.id == i) = 1 := by
      have h := List.countP_map (fun x => x == i) SaleRecord.id store
      simp only [Function.comp_def] at h
      rw [← h]
      exact hc
    have hflen : (store.filter fun s => s.id == i).length = 1 := by
      rw [← List.countP_eq_length_filter]
      exact hc2
    have hsplit := length_filter_split
      (fun s : SaleRecord => decide (s.id ≠ i)) store
    have hcongr : (store.filter fun s => !decide (s.id ≠ i))
        = store.filter fun s => s.id == i :=
      List.filter_congr fun s _ => by
        by_cases hsi : s.id = i <;> simp [hsi]
    refine ⟨?_, ?_, ?_, ?_, ?_⟩
    · unfold delete_sale_record
      exact List.any_eq_true.mpr ⟨r, hr, by simp [hrid]⟩
    · unfold delete_sale_record
      rw [hcongr, hflen] at hsplit
      simpa using hsplit
    · intro s hs hsid
      exact List.mem_filter.mpr ⟨hs, by simp [hsid]⟩
    · intro s hs
      rcases List.mem_filter.mp hs with ⟨h1, h2⟩
      exact ⟨h1, by simpa using h2⟩
    · intro s hs
      have hmem : s ∈ (delete_sale_record store i).1 :=
        (List.mergeSort_perm (delete_sale_record store i).1
          fetchOrder).mem_iff.mp (by simpa [get_all_sales] using hs)
      exact (by simpa using (List.mem_filter.mp hmem).2 :
        s.id ≠ i)

/-- C9 (witness): the delete contract applied at a concrete two-record
store — deleting the absent id 3 is a no-op returning `false`; deleting the
present id 1 returns `true` and shrinks the store from 2 records to 1. -/
theorem delete_spec_witness :
    delete_sale_record [recW, recG] 3 = ([recW, recG], false) ∧
    (delete_sale_record [recW, recG] 1).2 = true ∧
    (delete_sale_record [recW, recG] 1).1.length + 1 = 2 := by
  refine ⟨(delete_spec [recW, recG] 3 (by decide)).1 (by decide), ?_, ?_⟩
  · exact ((delete_spec [recW, recG] 1 (by decide)).2 recW (by decide)
      (by decide)).1
  · exact ((delete_spec [recW, recG] 1 (by decide)).2 recW (by decide)
      (by decide)).2.1

/-! ## C10 — update reports success without a match -/

/-- C10: `update_sale_record` never checks the affected-row count, so any
update that names at least one column (an empty `updates` dict instead
fails on its malformed `SET` clause before any row count exists) returns
`True` even when no record carries the given id, while leaving the store
unchanged — a `True` result does not imply any record was modified. -/
theorem update_true_without_match (store : List SaleRecord) (i : Nat)
    (u : RecUpdate) (hu : u.isEmpty = false) (h : ∀ r ∈ store, r.id ≠ i) :
    update_sale_record store i u = (store, true) := by
  unfold update_sale_record
  rw [if_neg (by simp [hu])]
  have hany : (store.any fun r =>
      r.id == i &&
        decide ((applyUpdate u r).sales < (applyUpdate u r).profit))
      = false :=
    List.any_eq_false.mpr fun r hr => by simp [h r hr]
  rw [if_neg (by simp [hany])]
  have hmap : (store.map fun r => if r.id = i then applyUpdate u r else r)
      = store := by
    conv_rhs => rw [← List.map_id store]
    exact List.map_congr_left fun r hr => by simp [h r hr]
  rw [hmap]

/-- C10 (witness): setting `sales = 50` on the absent id 5 of a one-record
store returns `True` and changes nothing. -/
theorem update_true_without_match_witness :
    update_sale_record [recW] 5 { sales := some 50 } = ([recW], true) :=
  update_true_without_match [recW] 5 { sales := some 50 }
    (by decide) (by decide)

end SalesData
